import Mathlib

/-!
Shallow embedding of the `worklog` service (files `database.py` and `main.py`)
and proofs about the behaviour its specification claims.

Modelling conventions:
* Python floats are modelled as rationals (`ℚ`); all arithmetic the claims
  exercise is exact in that range.
* Python `Optional` values are `Option`; Python truthiness (`x or d`,
  `if x:`) is modelled explicitly by the `pyOr*` / `pyTruthy` helpers, so
  `0`, `""`, `{}` and `None` are all falsy, exactly as in the source.
* The SQLite table is a `Store`: the list of rows in insertion order plus the
  `AUTOINCREMENT` counter.  `ORDER BY timestamp DESC` is modelled as a stable
  sort of the insertion-ordered rows (the spec describes the underlying store
  as yielding its stable order for equal sort keys).
* `ZeroDivisionError` is modelled by `Option`: `build_notify_message` returns
  `none` exactly when Python would raise.
-/

/-- Truthiness of an optional float, as Python evaluates `if x:`:
`None` and `0.0` are falsy, everything else truthy. -/
def pyTruthy (x : Option ℚ) : Bool :=
  match x with
  | none => false
  | some q => decide (q ≠ 0)

/-- Python `x or d` for an optional string: `None` and `""` give `d`. -/
def pyOrStr (x : Option String) (d : String) : String :=
  match x with
  | none => d
  | some s => if s = "" then d else s

/-- Python `x or d` for an optional integer: `None` and `0` give `d`. -/
def pyOrInt (x : Option Int) (d : Int) : Int :=
  match x with
  | none => d
  | some n => if n = 0 then d else n

/-- Python `x or d` for an optional float: `None` and `0.0` give `d`. -/
def pyOrQ (x : Option ℚ) (d : ℚ) : ℚ :=
  match x with
  | none => d
  | some q => if q = 0 then d else q

/-- Floor of a rational, computed on its numerator and denominator so the
kernel can evaluate it. -/
def ratFloor (q : ℚ) : Int :=
  Int.fdiv q.num q.den

/-- Rounding half away from zero, as SQLite's `ROUND` does. -/
def roundHalfAway (q : ℚ) : Int :=
  if 0 ≤ q then ratFloor (q + mkRat 1 2) else - ratFloor (mkRat 1 2 - q)

/-- SQLite `ROUND(x, 2)`. -/
def round2 (q : ℚ) : ℚ :=
  (roundHalfAway (q * 100) : ℚ) / 100

/-- Rounding half to even, as Python's `round` does on exact values. -/
def roundHalfEven (q : ℚ) : Int :=
  let f := ratFloor q
  if q - f < mkRat 1 2 then f
  else if mkRat 1 2 < q - f then f + 1
  else if f % 2 = 0 then f else f + 1

/-- Python `round(x, 1)`. -/
def pyRound1 (q : ℚ) : ℚ :=
  (roundHalfEven (q * 10) : ℚ) / 10

/-- Gregorian calendar date for a count of days since 1970-01-01
(year, month, day); the standard civil-from-days computation used to model
`datetime.fromtimestamp(_, tz=timezone.utc)`. -/
def civilFromDays (z0 : Int) : Int × Int × Int :=
  let z := z0 + 719468
  let era : Int := Int.fdiv z 146097
  let doe : Int := z - era * 146097
  let yoe : Int := Int.fdiv (doe - Int.fdiv doe 1460 + Int.fdiv doe 36524 - Int.fdiv doe 146096) 365
  let y : Int := yoe + era * 400
  let doy : Int := doe - (365 * yoe + Int.fdiv yoe 4 - Int.fdiv yoe 100)
  let mp : Int := Int.fdiv (5 * doy + 2) 153
  let d : Int := doy - Int.fdiv (153 * mp + 2) 5 + 1
  let m : Int := mp + (if mp < 10 then 3 else -9)
  (y + (if m ≤ 2 then 1 else 0), m, d)

/-- Zero-padding to two digits, as `strftime` does for `%m` and `%d`. -/
def pad2 (n : Nat) : String :=
  if n < 10 then "0" ++ toString n else toString n

/-- Zero-padding to four digits, as `strftime` does for `%Y`. -/
def pad4 (n : Nat) : String :=
  if n < 10 then "000" ++ toString n
  else if n < 100 then "00" ++ toString n
  else if n < 1000 then "0" ++ toString n
  else toString n

/-- UTC calendar date `YYYY-MM-DD` of an epoch-milliseconds timestamp; models
`datetime.fromtimestamp(ts / 1000, tz=timezone.utc).strftime("%Y-%m-%d")`
from `database.py`. -/
def dateOfMs (ts : Int) : String :=
  let days := Int.fdiv ts 86400000
  let c := civilFromDays days
  pad4 c.1.toNat ++ "-" ++ pad2 c.2.1.toNat ++ "-" ++ pad2 c.2.2.toNat

/-- Structured metadata map; the store treats it as opaque, so a flat
string-to-string object is enough to model `json.dumps`/round-tripping. -/
abbrev Metadata := List (String × String)

/-- Serialization of a metadata map, modelling `json.dumps` on a flat
string-to-string dict (keys in insertion order, `", "` separators). -/
def jsonDumps (m : Metadata) : String :=
  "\x7b" ++ String.intercalate ", "
    (m.map (fun kv => "\"" ++ kv.1 ++ "\": \"" ++ kv.2 ++ "\"")) ++ "\x7d"

/-- Row of the `sessions` table, as created by `init_db` in `database.py`.
`metadata` is the serialized TEXT column (`NULL` or a JSON string). -/
structure Session where
  id : Nat
  project : String
  description : Option String
  task_type : String
  actual_hours : ℚ
  manual_estimate : Option ℚ
  timestamp : Int
  date : String
  metadata : Option String
deriving DecidableEq, Repr

/-- State of the SQLite database: rows in insertion order, plus the
`AUTOINCREMENT` counter (the id the next insert receives). -/
structure Store where
  nextId : Nat
  rows : List Session
deriving DecidableEq, Repr

/-- Empty database, as `init_db` creates it; `AUTOINCREMENT` starts at 1. -/
def emptyStore : Store :=
  { nextId := 1, rows := [] }

/-- Embedding of `save_session` from `database.py`, parameterised by the
current epoch-milliseconds clock `now` (for `int(time.time() * 1000)`).
`ts = timestamp or now` and `dt = date or derived` use Python truthiness, so
`timestamp=0` and `date=""` fall back to the defaults; metadata is serialized
only when truthy (`json.dumps(metadata) if metadata else None`).  Returns the
new store and `cur.lastrowid`. -/
def save_session (now : Int) (st : Store) (project : String)
    (description : Option String) (task_type : String) (actual_hours : ℚ)
    (manual_estimate : Option ℚ) (timestamp : Option Int)
    (date : Option String) (metadata : Option Metadata) : Store × Nat :=
  let ts := pyOrInt timestamp now
  let dt := pyOrStr date (dateOfMs ts)
  let meta_str : Option String :=
    match metadata with
    | some m => if m = [] then none else some (jsonDumps m)
    | none => none
  let row : Session :=
    { id := st.nextId, project := project, description := description
    , task_type := task_type, actual_hours := actual_hours
    , manual_estimate := manual_estimate, timestamp := ts, date := dt
    , metadata := meta_str }
  ({ nextId := st.nextId + 1, rows := st.rows ++ [row] }, st.nextId)

/-- Stable insertion into a list already ordered by `timestamp` descending:
the new element goes in front of the first element whose timestamp it ties or
exceeds.  Models one step of the stable sort the underlying store performs
for `ORDER BY timestamp DESC`. -/
def orderInsert (x : Session) : List Session → List Session
  | [] => [x]
  | y :: ys => if y.timestamp ≤ x.timestamp then x :: y :: ys
               else y :: orderInsert x ys

/-- Stable sort of the rows by `timestamp` descending (rows with equal
timestamps keep their scan order, i.e. insertion order), modelling
`ORDER BY timestamp DESC` over the table scan. -/
def orderByTimestampDesc (l : List Session) : List Session :=
  l.foldr orderInsert []

/-- Embedding of `get_sessions` from `database.py`:
`SELECT * FROM sessions ORDER BY timestamp DESC LIMIT ?`, rows returned as
stored (`dict(r)` — in particular `metadata` stays the serialized string). -/
def get_sessions (limit : Nat) (st : Store) : List Session :=
  (orderByTimestampDesc st.rows).take limit

/-- Per-row contribution to `hours_saved` in the `get_stats` query:
`CASE WHEN manual_estimate IS NOT NULL THEN MAX(0, manual_estimate - actual_hours) ELSE 0 END`. -/
def savedContribution (r : Session) : ℚ :=
  match r.manual_estimate with
  | some m => max 0 (m - r.actual_hours)
  | none => 0

/-- Aggregate result of the `get_stats` query.  `SUM` over zero rows is SQL
`NULL`, hence the `Option` columns. -/
structure StatsSnapshot where
  total_sessions : Nat
  total_hours : Option ℚ
  hours_saved : Option ℚ
  project_count : Nat
deriving DecidableEq, Repr

/-- Embedding of `get_stats` from `database.py`. -/
def get_stats (st : Store) : StatsSnapshot :=
  { total_sessions := st.rows.length
  , total_hours :=
      if st.rows.isEmpty then none
      else some (round2 ((st.rows.map (fun r => r.actual_hours)).sum))
  , hours_saved :=
      if st.rows.isEmpty then none
      else some (round2 ((st.rows.map savedContribution).sum))
  , project_count := (st.rows.map (fun r => r.project)).dedup.length }

/-- Embedding of `delete_session` from `database.py`:
`DELETE FROM sessions WHERE id = ?`. -/
def delete_session (st : Store) (session_id : Nat) : Store :=
  { nextId := st.nextId, rows := st.rows.filter (fun r => r.id ≠ session_id) }

/-- Discord channel id constant from `main.py`. -/
def DISCORD_LOGS_CHANNEL : String := "1476717294397952071"

/-- Shared-secret API key constant from `main.py`. -/
def API_KEY : String := "wl-justin-2026"

/-- One line of the notification queue file
(`{channel, message, ts}` appended as JSON by `notify_discord`). -/
structure QEntry where
  channel : String
  message : String
  ts : ℚ
deriving DecidableEq, Repr

/-- Embedding of `notify_discord` from `main.py`.  The file append can fail;
`appendFails` says whether it does.  The `try/except Exception: pass` means a
failure leaves the queue unchanged and is never surfaced, so the function is
total and returns only the (possibly unchanged) queue. -/
def notify_discord (appendFails : Bool) (nowS : ℚ) (queue : List QEntry)
    (message : String) : List QEntry :=
  if appendFails then queue
  else queue ++ [{ channel := DISCORD_LOGS_CHANNEL, message := message, ts := nowS }]

/-- Embedding of `should_notify` from `main.py`.  The last guard is Python's
`if manual_estimate and manual_estimate >= 10.0`, hence the truthiness test. -/
def should_notify (task_type : String) (actual_hours : ℚ)
    (manual_estimate : Option ℚ) : Bool :=
  if task_type = "scan" then true
  else if mkRat 1 2 ≤ actual_hours then true
  else if pyTruthy manual_estimate = true ∧ 10 ≤ manual_estimate.getD 0 then true
  else false

/-- Formatting of a rational that is an exact multiple of 1/10 with one
decimal digit, as Python prints such a float. -/
def fmt1 (q : ℚ) : String :=
  let n := ratFloor (q * 10)
  let sign := if n < 0 then "-" else ""
  let a := n.natAbs
  sign ++ toString (a / 10) ++ "." ++ toString (a % 10)

/-- Embedding of `build_notify_message` from `main.py`.  Returns `none` when
Python raises `ZeroDivisionError`: the multiplier branch is entered whenever
`manual_estimate` is truthy and positive, and then divides by
`actual_hours` unconditionally. -/
def build_notify_message (project : String) (description : String)
    (task_type : String) (actual_hours : ℚ) (manual_estimate : Option ℚ) :
    Option String :=
  let mins := pyRound1 (actual_hours * 60)
  let time_str :=
    if mins < 60 then fmt1 mins ++ "m" else fmt1 (pyRound1 actual_hours) ++ "h"
  let msg := "📋 **WorkLog** · `" ++ project ++ "` · "
    ++ (if description = "" then task_type else description)
    ++ " · ⏱ " ++ time_str
  if pyTruthy manual_estimate = true ∧ 0 < manual_estimate.getD 0 then
    if actual_hours = 0 then none
    else
      let multiplier := roundHalfEven (manual_estimate.getD 0 / actual_hours)
      some (msg ++ " · **" ++ toString multiplier ++ "x faster than manual**")
  else some msg

/-- Errors a request can surface: a 401 from `require_key`, or an uncaught
`ZeroDivisionError` escaping `build_notify_message`. -/
inductive ApiErr
  | auth
  | zeroDiv
deriving DecidableEq, Repr

/-- Embedding of `require_key` from `main.py`: reject unless the header
exactly equals the shared secret (a missing header is `None ≠ API_KEY`). -/
def require_key (x_wl_key : Option String) : Except ApiErr Unit :=
  if x_wl_key ≠ some API_KEY then Except.error ApiErr.auth else Except.ok ()

/-- Request body of `POST /api/log` (the pydantic `SessionIn` model).
`none` models an absent or `null` field. -/
structure SessionIn where
  project : String
  description : Option String
  task_type : Option String
  actual_hours : ℚ
  manual_estimate : Option ℚ
  timestamp : Option Int
  date : Option String
  metadata : Option Metadata
deriving DecidableEq, Repr

/-- Embedding of the `POST /api/log` handler `log_session` from `main.py`,
parameterised by the clock (`nowMs` for `time.time() * 1000`, `nowS` for the
queue entry's `time.time()`) and by whether the queue-file append fails.
Returns the store after the call, the queue after the call, and the response
(`id` on success).  The database insert happens before the notification step,
so a `ZeroDivisionError` in `build_notify_message` leaves the row stored. -/
def log_session (nowMs : Int) (nowS : ℚ) (appendFails : Bool) (st : Store)
    (queue : List QEntry) (session : SessionIn) (x_wl_key : Option String) :
    Store × List QEntry × Except ApiErr Nat :=
  match require_key x_wl_key with
  | Except.error e => (st, queue, Except.error e)
  | Except.ok _ =>
    let task_type := pyOrStr session.task_type "manual"
    let res := save_session nowMs st session.project session.description
      task_type session.actual_hours session.manual_estimate
      session.timestamp session.date session.metadata
    if should_notify task_type session.actual_hours
        (some (pyOrQ session.manual_estimate 0)) then
      match build_notify_message session.project
          (pyOrStr session.description "") task_type session.actual_hours
          (some (pyOrQ session.manual_estimate 0)) with
      | none => (res.1, queue, Except.error ApiErr.zeroDiv)
      | some msg => (res.1, notify_discord appendFails nowS queue msg, Except.ok res.2)
    else (res.1, queue, Except.ok res.2)

/-- Embedding of the `GET /api/sessions` handler `list_sessions`. -/
def list_sessions (limit : Nat) (st : Store) (x_wl_key : Option String) :
    Except ApiErr (List Session) :=
  match require_key x_wl_key with
  | Except.error e => Except.error e
  | Except.ok _ => Except.ok (get_sessions limit st)

/-- Embedding of the `GET /api/stats` handler `stats`. -/
def stats (st : Store) (x_wl_key : Option String) :
    Except ApiErr StatsSnapshot :=
  match require_key x_wl_key with
  | Except.error e => Except.error e
  | Except.ok _ => Except.ok (get_stats st)

/-- Embedding of the `DELETE /api/sessions/id` handler `remove_session`;
returns the store after the call together with the response. -/
def remove_session (session_id : Nat) (st : Store) (x_wl_key : Option String) :
    Store × Except ApiErr Unit :=
  match require_key x_wl_key with
  | Except.error e => (st, Except.error e)
  | Except.ok _ => (delete_session st session_id, Except.ok ())

/-- Helper: `pyOrInt` agrees with `Option.getD` as long as the wrapped value
is not the falsy `0`. -/
theorem pyOrInt_eq_getD {x : Option Int} {d : Int} (h : x ≠ some 0) :
    pyOrInt x d = x.getD d := by
  cases x with
  | none => rfl
  | some n =>
    have hn : n ≠ 0 := by
      intro h0
      exact h (by rw [h0])
    simp [pyOrInt, hn]

/-- Helper: `pyOrStr` agrees with `Option.getD` as long as the wrapped value
is not the falsy `""`. -/
theorem pyOrStr_eq_getD {x : Option String} {d : String} (h : x ≠ some "") :
    pyOrStr x d = x.getD d := by
  cases x with
  | none => rfl
  | some s =>
    have hs : s ≠ "" := by
      intro h0
      exact h (by rw [h0])
    simp [pyOrStr, hs]

/-- C1: the claim fails on the code.  `save_session` computes
`ts = timestamp or int(time.time() * 1000)`, and Python's `or` treats the
explicit value `0` as falsy, so a create call with `timestamp=0` and no date
stores the current clock and its calendar date (here the clock is
1760227200000, i.e. 2025-10-12 UTC) — not the epoch date "1970-01-01" that
`timestamp=0` derives to. -/
theorem c1_timestamp_zero_replaced_by_clock :
    dateOfMs 0 = "1970-01-01" ∧
    (save_session 1760227200000 emptyStore "proj" none "manual" 1 none
        (some 0) none none).1.rows.map (fun r => (r.timestamp, r.date))
      = [(1760227200000, "2025-10-12")] ∧
    ("2025-10-12" : String) ≠ "1970-01-01" := by
  refine ⟨by decide, by decide, by decide⟩

/-- C2: the claim fails on the code.  With `actual_hours = 0` and a positive
`manual_estimate`, `build_notify_message` enters the multiplier branch
(`if manual_estimate and manual_estimate > 0`) and evaluates
`manual_estimate / actual_hours`, which raises `ZeroDivisionError` in Python
(modelled by `none`); the input is reachable because
`should_notify("scan", 0, 15)` is true. -/
theorem c2_zero_hours_division_fault :
    should_notify "scan" 0 (some 15) = true ∧
    build_notify_message "proj" "" "scan" 0 (some 15) = none := by
  refine ⟨by decide, by decide⟩

/-- C10: an empty-map metadata value is stored exactly as an absent one
(`json.dumps(metadata) if metadata else None` — `{}` is falsy), and an
empty-string date is replaced by the timestamp-derived date exactly as an
absent one (`date or derived` — `""` is falsy): in both cases the resulting
store state is identical to the omitted-field call. -/
theorem c10_empty_values_behave_as_absent (now : Int) (st : Store)
    (project : String) (description : Option String) (tt : String)
    (actual_hours : ℚ) (manual_estimate : Option ℚ) (ts : Option Int)
    (dt : Option String) (md : Option Metadata) :
    save_session now st project description tt actual_hours manual_estimate
        ts dt (some []) =
      save_session now st project description tt actual_hours manual_estimate
        ts dt none ∧
    save_session now st project description tt actual_hours manual_estimate
        ts (some "") md =
      save_session now st project description tt actual_hours manual_estimate
        ts none md := by
  constructor
  · simp [save_session]
  · simp [save_session, pyOrStr]

/-- C5: `should_notify` returns true exactly when the task type is "scan",
or the actual hours reach 0.5, or a manual estimate is present and reaches
10.0 (the truthiness test in `if manual_estimate and manual_estimate >= 10.0`
cannot exclude a present estimate ≥ 10, since such a value is nonzero); and
the four example calls of the specification evaluate as stated. -/
theorem c5_should_notify_iff :
    (∀ (tt : String) (ah : ℚ) (me : Option ℚ),
      should_notify tt ah me = true ↔
        (tt = "scan" ∨ mkRat 1 2 ≤ ah ∨ ∃ x, me = some x ∧ 10 ≤ x)) ∧
    should_notify "scan" (mkRat 1 100) none = true ∧
    should_notify "manual" (mkRat 2 5) (some 9) = false ∧
    should_notify "manual" (mkRat 2 5) (some 10) = true ∧
    should_notify "manual" (mkRat 3 5) none = true := by
  refine ⟨?_, by decide, by decide, by decide, by decide⟩
  intro tt ah me
  constructor
  · intro h
    unfold should_notify at h
    split_ifs at h with h1 h2 h3
    · exact Or.inl h1
    · exact Or.inr (Or.inl h2)
    · obtain ⟨htr, hge⟩ := h3
      cases me with
      | none => exact absurd htr (by simp [pyTruthy])
      | some x =>
        exact Or.inr (Or.inr ⟨x, rfl, by simpa using hge⟩)
  · intro h
    unfold should_notify
    split_ifs with h1 h2 h3
    · rfl
    · rfl
    · rfl
    · exfalso
      rcases h with h | h | ⟨x, hx, hge⟩
      · exact h1 h
      · exact h2 h
      · subst hx
        apply h3
        have hx0 : x ≠ 0 := by
          intro h0
          rw [h0] at hge
          norm_num at hge
        exact ⟨by simp [pyTruthy, hx0], by simpa using hge⟩

/-- Helper: filtering out an id that occurs nowhere in a list of sessions
leaves the list unchanged. -/
theorem filter_ne_id_eq_self (l : List Session) (i : Nat)
    (h : i ∉ l.map Session.id) :
    l.filter (fun r => r.id ≠ i) = l := by
  apply List.filter_eq_self.mpr
  intro a ha
  simp only [ne_eq, decide_not, Bool.not_eq_eq_eq_not, Bool.not_true,
    decide_eq_false_iff_not]
  intro he
  exact h (List.mem_map.mpr ⟨a, ha, he⟩)

/-- Helper: when ids are strictly increasing along the list, filtering out
the id of a member removes exactly that member. -/
theorem filter_ne_id_eq_erase (l : List Session) (r : Session) (i : Nat)
    (hmem : r ∈ l) (hid : r.id = i)
    (hp : l.Pairwise (fun a b => a.id < b.id)) :
    l.filter (fun s => s.id ≠ i) = l.erase r := by
  induction l with
  | nil => cases hmem
  | cons x xs ih =>
    rcases List.mem_cons.mp hmem with heq | hmem'
    · have hrest : i ∉ xs.map Session.id := by
        intro hy
        obtain ⟨y, hy, hyid⟩ := List.mem_map.mp hy
        have hlt := (List.pairwise_cons.mp hp).1 y hy
        rw [heq] at hid
        omega
      have h1 : List.filter (fun s => decide (s.id ≠ i)) (x :: xs)
          = List.filter (fun s => decide (s.id ≠ i)) xs := by
        rw [List.filter_cons]
        have hcond : ¬ (x.id ≠ i) := by
          rw [← heq]
          simp [hid]
        simp [hcond]
      have h2 : (x :: xs).erase r = xs := by
        rw [heq, List.erase_cons_head]
      rw [h1, h2]
      exact filter_ne_id_eq_self xs i hrest
    · have hlt := (List.pairwise_cons.mp hp).1 r hmem'
      have hxr : x ≠ r := by
        intro he
        rw [he] at hlt
        omega
      have hxi : x.id ≠ i := by omega
      have herase : (x :: xs).erase r = x :: xs.erase r := by
        rw [List.erase_cons_tail]
        simp [hxr]
      rw [herase, List.filter_cons]
      have hcond : (decide (x.id ≠ i)) = true := by simpa using hxi
      rw [hcond, if_pos rfl, ih hmem' (List.pairwise_cons.mp hp).2]

/-- C9: deleting an id that is not in the store is a no-op (the store,
including every row and the row count, is unchanged and no error is
possible), and deleting the id of a stored row removes exactly that row,
provided ids are unique (strictly increasing, as `AUTOINCREMENT` assigns
them). -/
theorem c9_delete_noop_or_exact (st : Store) (i : Nat) :
    (i ∉ st.rows.map Session.id → delete_session st i = st) ∧
    (∀ r ∈ st.rows, r.id = i →
      st.rows.Pairwise (fun a b => a.id < b.id) →
      (delete_session st i).rows = st.rows.erase r) := by
  constructor
  · intro h
    cases st with
    | mk n rows =>
      simp only [delete_session]
      rw [filter_ne_id_eq_self rows i h]
  · intro r hr hid hp
    simpa [delete_session] using filter_ne_id_eq_erase st.rows r i hr hid hp

/-- Example row used in concrete witnesses. -/
def rowA : Session :=
  { id := 1, project := "alpha", description := none, task_type := "manual"
  , actual_hours := 1, manual_estimate := none, timestamp := 5
  , date := "1970-01-01", metadata := none }

/-- Example row used in concrete witnesses. -/
def rowB : Session :=
  { id := 2, project := "beta", description := none, task_type := "manual"
  , actual_hours := 1, manual_estimate := none, timestamp := 6
  , date := "1970-01-01", metadata := none }

/-- Example two-row store used in concrete witnesses. -/
def storeAB : Store :=
  { nextId := 3, rows := [rowA, rowB] }

/-- Witness for C9 at a concrete store: id 7 is absent, so deletion is the
identity; id 2 belongs to `rowB`, so deletion erases exactly `rowB`. -/
theorem c9_delete_noop_or_exact_witness :
    delete_session storeAB 7 = storeAB ∧
    (delete_session storeAB 2).rows = storeAB.rows.erase rowB :=
  ⟨(c9_delete_noop_or_exact storeAB 7).1 (by decide),
   (c9_delete_noop_or_exact storeAB 2).2 rowB (by decide) rfl (by decide)⟩

/-- Example request payload used in concrete witnesses. -/
def payloadA : SessionIn :=
  { project := "alpha", description := some "desc", task_type := some "manual"
  , actual_hours := 1, manual_estimate := some 2, timestamp := some 5
  , date := some "2020-01-02", metadata := some [("k", "v")] }

/-- C7: `require_key` runs first in every protected handler, so a missing or
wrong key makes each of the four endpoints return the 401 error with the
store and the notification queue exactly as they were: no row stored, no row
deleted, no queue entry written. -/
theorem c7_auth_before_side_effects (nowMs : Int) (nowS : ℚ)
    (appendFails : Bool) (st : Store) (queue : List QEntry) (p : SessionIn)
    (limit session_id : Nat) (key : Option String)
    (h : key ≠ some API_KEY) :
    log_session nowMs nowS appendFails st queue p key
        = (st, queue, Except.error ApiErr.auth) ∧
    list_sessions limit st key = Except.error ApiErr.auth ∧
    stats st key = Except.error ApiErr.auth ∧
    remove_session session_id st key = (st, Except.error ApiErr.auth) := by
  have hk : require_key key = Except.error ApiErr.auth := by
    simp [require_key, h]
  refine ⟨?_, ?_, ?_, ?_⟩
  · rw [log_session, hk]
  · rw [list_sessions, hk]
  · rw [stats, hk]
  · rw [remove_session, hk]

/-- Witness for C7: an absent key is rejected by all four endpoints with no
change to a concrete store and queue. -/
theorem c7_auth_before_side_effects_witness :
    log_session 0 0 false storeAB [] payloadA none
        = (storeAB, [], Except.error ApiErr.auth) ∧
    list_sessions 200 storeAB none = Except.error ApiErr.auth ∧
    stats storeAB none = Except.error ApiErr.auth ∧
    remove_session 1 storeAB none = (storeAB, Except.error ApiErr.auth) :=
  c7_auth_before_side_effects 0 0 false storeAB [] payloadA 200 1 none
    (by decide)

/-- C8: a failing queue-file append changes nothing the caller can see: the
resulting store and the response are identical to a run where the append
succeeds (the `except Exception: pass` swallows the fault), the queue is left
untouched, and with a valid key the session row is persisted regardless. -/
theorem c8_notify_failure_swallowed (nowMs : Int) (nowS : ℚ) (st : Store)
    (queue : List QEntry) (p : SessionIn) (key : Option String) :
    (log_session nowMs nowS true st queue p key).1
        = (log_session nowMs nowS false st queue p key).1 ∧
    (log_session nowMs nowS true st queue p key).2.2
        = (log_session nowMs nowS false st queue p key).2.2 ∧
    (log_session nowMs nowS true st queue p key).2.1 = queue ∧
    (key = some API_KEY →
      ∃ r, (log_session nowMs nowS true st queue p key).1.rows
        = st.rows ++ [r]) := by
  by_cases hk : key = some API_KEY
  · subst hk
    have hok : require_key (some API_KEY) = Except.ok () := by
      simp [require_key]
    rw [log_session, log_session, hok]
    simp only
    split
    · split
      · exact ⟨rfl, rfl, rfl, fun _ => ⟨_, rfl⟩⟩
      · exact ⟨rfl, rfl, by simp [notify_discord], fun _ => ⟨_, rfl⟩⟩
    · exact ⟨rfl, rfl, rfl, fun _ => ⟨_, rfl⟩⟩
  · have herr : require_key key = Except.error ApiErr.auth := by
      simp [require_key, hk]
    rw [log_session, log_session, herr]
    exact ⟨rfl, rfl, rfl, fun h => absurd h hk⟩

/-- Witness for C8 at a concrete notable payload: with the append failing,
the store and response match the succeeding run, the queue stays empty, and
the row is stored. -/
theorem c8_notify_failure_swallowed_witness :
    (log_session 0 0 true emptyStore [] payloadA (some API_KEY)).1
        = (log_session 0 0 false emptyStore [] payloadA (some API_KEY)).1 ∧
    (log_session 0 0 true emptyStore [] payloadA (some API_KEY)).2.2
        = (log_session 0 0 false emptyStore [] payloadA (some API_KEY)).2.2 ∧
    (log_session 0 0 true emptyStore [] payloadA (some API_KEY)).2.1 = [] ∧
    (some API_KEY = some API_KEY →
      ∃ r, (log_session 0 0 true emptyStore [] payloadA (some API_KEY)).1.rows
        = emptyStore.rows ++ [r]) :=
  c8_notify_failure_swallowed 0 0 emptyStore [] payloadA (some API_KEY)

/-- Helper: the floor of a nonnegative rational is nonnegative. -/
theorem ratFloor_nonneg {q : ℚ} (h : 0 ≤ q) : 0 ≤ ratFloor q := by
  unfold ratFloor
  apply Int.fdiv_nonneg
  · exact Rat.num_nonneg.mpr h
  · exact Int.ofNat_nonneg q.den

/-- Helper: `mkRat 1 2` is the rational one half. -/
theorem mkRat_one_two_eq : (mkRat 1 2 : ℚ) = 1 / 2 := by
  rw [Rat.mkRat_eq_div]
  norm_num

/-- Helper: SQLite rounding to two decimals preserves nonnegativity. -/
theorem round2_nonneg {q : ℚ} (h : 0 ≤ q) : 0 ≤ round2 q := by
  unfold round2 roundHalfAway
  have h100 : (0:ℚ) ≤ q * 100 := by positivity
  rw [if_pos h100]
  have hfl : 0 ≤ ratFloor (q * 100 + mkRat 1 2) := by
    apply ratFloor_nonneg
    rw [mkRat_one_two_eq]
    positivity
  positivity

/-- C6: whenever `get_stats` reports an `hours_saved` value, that value is
the two-decimal rounding of the sum of the per-row contributions
`MAX(0, manual_estimate - actual_hours)` (rows without an estimate contribute
0), it is never negative, and the floor is applied per row: any row whose
actual hours reach its estimate contributes exactly 0 to the sum. -/
theorem c6_hours_saved_per_row_floor (st : Store) (x : ℚ)
    (hx : (get_stats st).hours_saved = some x) :
    0 ≤ x ∧
    x = round2 ((st.rows.map savedContribution).sum) ∧
    (∀ r : Session, ∀ m : ℚ, r.manual_estimate = some m →
      m ≤ r.actual_hours → savedContribution r = 0) ∧
    (∀ r : Session, r.manual_estimate = none → savedContribution r = 0) := by
  have hsum : 0 ≤ (st.rows.map savedContribution).sum := by
    apply List.sum_nonneg
    intro y hy
    obtain ⟨r, _, rfl⟩ := List.mem_map.mp hy
    unfold savedContribution
    cases r.manual_estimate with
    | none => exact le_refl 0
    | some m => exact le_max_left 0 _
  have hxval : x = round2 ((st.rows.map savedContribution).sum) := by
    unfold get_stats at hx
    by_cases he : st.rows.isEmpty
    · simp [he] at hx
    · simp only [he, if_false] at hx
      exact (Option.some_injective ℚ hx).symm
  refine ⟨?_, hxval, ?_, ?_⟩
  · rw [hxval]
    exact round2_nonneg hsum
  · intro r m hm hle
    unfold savedContribution
    rw [hm]
    exact max_eq_left (by linarith)
  · intro r hm
    unfold savedContribution
    rw [hm]

/-- Example row whose actual hours exceed its estimate (contributes 0). -/
def rowOver : Session :=
  { id := 1, project := "alpha", description := none, task_type := "manual"
  , actual_hours := 2, manual_estimate := some 1, timestamp := 5
  , date := "1970-01-01", metadata := none }

/-- Example row whose estimate exceeds its actual hours (contributes 3). -/
def rowUnder : Session :=
  { id := 2, project := "beta", description := none, task_type := "manual"
  , actual_hours := 2, manual_estimate := some 5, timestamp := 6
  , date := "1970-01-01", metadata := none }

/-- Example store mixing an over-estimate row and an under-estimate row. -/
def storeMix : Store :=
  { nextId := 3, rows := [rowOver, rowUnder] }

/-- Helper: `hours_saved` of the mixed example store evaluates to 3 — the
over-run row is floored to 0 per row rather than subtracting. -/
theorem storeMix_hours_saved : (get_stats storeMix).hours_saved = some 3 := by
  have h1 : savedContribution rowOver + savedContribution rowUnder = 3 := by
    simp only [savedContribution, rowOver, rowUnder]
    norm_num [max_def]
  have ha : (3:ℚ) * 100 + mkRat 1 2 = mkRat 601 2 := by
    rw [mkRat_one_two_eq, Rat.mkRat_eq_div]
    norm_num
  have h2 : roundHalfAway ((3:ℚ) * 100) = 300 := by
    unfold roundHalfAway
    rw [if_pos (by norm_num), ha]
    decide
  have h3 : round2 3 = 3 := by
    unfold round2
    rw [h2]
    norm_num
  simp [get_stats, storeMix, h1, h3]

/-- Witness for C6 at the mixed example store, where `hours_saved` is 3. -/
theorem c6_hours_saved_per_row_floor_witness :
    0 ≤ (3:ℚ) ∧
    (3:ℚ) = round2 ((storeMix.rows.map savedContribution).sum) ∧
    (∀ r : Session, ∀ m : ℚ, r.manual_estimate = some m →
      m ≤ r.actual_hours → savedContribution r = 0) ∧
    (∀ r : Session, r.manual_estimate = none → savedContribution r = 0) :=
  c6_hours_saved_per_row_floor storeMix 3 storeMix_hours_saved

/-- Output order of the modelled `ORDER BY timestamp DESC` over rows with
strictly increasing ids: strictly later timestamp first, and rows with equal
timestamps in insertion order (id ascending). -/
def tsThenInsertion (a b : Session) : Prop :=
  b.timestamp < a.timestamp ∨ (a.timestamp = b.timestamp ∧ a.id < b.id)

/-- Helper: every element of `orderInsert x l` is `x` or an element of `l`. -/
theorem orderInsert_mem {z x : Session} {l : List Session}
    (h : z ∈ orderInsert x l) : z = x ∨ z ∈ l := by
  induction l with
  | nil =>
    simp [orderInsert] at h
    exact Or.inl h
  | cons y ys ih =>
    rw [orderInsert] at h
    by_cases hy : y.timestamp ≤ x.timestamp
    · rw [if_pos hy] at h
      rcases List.mem_cons.mp h with rfl | h'
      · exact Or.inl rfl
      · exact Or.inr h'
    · rw [if_neg hy] at h
      rcases List.mem_cons.mp h with rfl | h'
      · exact Or.inr (List.mem_cons_self _ _)
      · rcases ih h' with hz | hz
        · exact Or.inl hz
        · exact Or.inr (List.mem_cons_of_mem _ hz)

/-- Helper: the modelled sort does not invent rows. -/
theorem orderByTimestampDesc_mem {z : Session} {l : List Session}
    (h : z ∈ orderByTimestampDesc l) : z ∈ l := by
  induction l with
  | nil => simp [orderByTimestampDesc] at h
  | cons a l ih =>
    have hfold : orderByTimestampDesc (a :: l)
        = orderInsert a (orderByTimestampDesc l) := rfl
    rw [hfold] at h
    rcases orderInsert_mem h with rfl | h'
    · exact List.mem_cons_self _ _
    · exact List.mem_cons_of_mem _ (ih h')

/-- Helper: inserting a row that precedes (in insertion order) every row of
an already-ordered list preserves the `tsThenInsertion` ordering. -/
theorem orderInsert_pairwise (x : Session) (l : List Session)
    (h1 : l.Pairwise tsThenInsertion)
    (h2 : ∀ y ∈ l, x.timestamp = y.timestamp → x.id < y.id) :
    (orderInsert x l).Pairwise tsThenInsertion := by
  induction l with
  | nil => simp [orderInsert]
  | cons y ys ih =>
    rw [orderInsert]
    by_cases hy : y.timestamp ≤ x.timestamp
    · rw [if_pos hy]
      refine List.Pairwise.cons ?_ h1
      intro z hz
      rcases List.mem_cons.mp hz with rfl | hz'
      · rcases lt_or_eq_of_le hy with hlt | heq
        · exact Or.inl hlt
        · exact Or.inr ⟨heq.symm, h2 z (List.mem_cons_self _ _) heq.symm⟩
      · have hTyz := (List.pairwise_cons.mp h1).1 z hz'
        rcases hTyz with hlt | ⟨heq, _⟩
        · exact Or.inl (lt_of_lt_of_le hlt hy)
        · rcases lt_or_eq_of_le hy with hlt2 | heq2
          · exact Or.inl (by omega)
          · exact Or.inr ⟨by omega, h2 z (List.mem_cons_of_mem _ hz') (by omega)⟩
    · rw [if_neg hy]
      have hxy : x.timestamp < y.timestamp := lt_of_not_le hy
      refine List.Pairwise.cons ?_
        (ih (List.pairwise_cons.mp h1).2
          (fun y' hy' he => h2 y' (List.mem_cons_of_mem _ hy') he))
      intro z hz
      rcases orderInsert_mem hz with rfl | hz'
      · exact Or.inl hxy
      · exact (List.pairwise_cons.mp h1).1 z hz'

/-- Helper: sorting rows whose ids strictly increase in insertion order
yields the `tsThenInsertion` ordering. -/
theorem orderByTimestampDesc_pairwise (l : List Session)
    (h : l.Pairwise (fun a b => a.id < b.id)) :
    (orderByTimestampDesc l).Pairwise tsThenInsertion := by
  induction l with
  | nil => simp [orderByTimestampDesc]
  | cons a l ih =>
    have hfold : orderByTimestampDesc (a :: l)
        = orderInsert a (orderByTimestampDesc l) := rfl
    rw [hfold]
    apply orderInsert_pairwise
    · exact ih (List.pairwise_cons.mp h).2
    · intro y hy _
      exact (List.pairwise_cons.mp h).1 y (orderByTimestampDesc_mem hy)

/-- Example row sharing its timestamp with `rowTie2`, inserted first. -/
def rowTie1 : Session :=
  { id := 1, project := "alpha", description := none, task_type := "manual"
  , actual_hours := 1, manual_estimate := none, timestamp := 100
  , date := "1970-01-01", metadata := none }

/-- Example row sharing its timestamp with `rowTie1`, inserted second. -/
def rowTie2 : Session :=
  { id := 2, project := "beta", description := none, task_type := "manual"
  , actual_hours := 1, manual_estimate := none, timestamp := 100
  , date := "1970-01-01", metadata := none }

/-- Example store holding two rows with the same timestamp. -/
def storeTie : Store :=
  { nextId := 3, rows := [rowTie1, rowTie2] }

/-- C4 counterexample: the query is `ORDER BY timestamp DESC` with no
secondary key, so rows sharing a timestamp come back in the store's stable
scan order — insertion order, id ascending.  On a store with two equal
timestamp rows the listing is `[id 1, id 2]`, which violates the claimed
id-descending (most-recently-inserted-first) tie order. -/
theorem c4_tie_order_counterexample :
    get_sessions 200 storeTie = [rowTie1, rowTie2] ∧
    ¬ (get_sessions 200 storeTie).Pairwise
        (fun a b => b.timestamp < a.timestamp ∨
          (a.timestamp = b.timestamp ∧ b.id < a.id)) := by
  constructor
  · decide
  · decide

/-- C4 amended: for stores whose rows have strictly increasing ids (as
`AUTOINCREMENT` assigns them), `get_sessions` returns at most `limit` rows,
drawn from the store, ordered by timestamp descending with ties in insertion
order (id ascending) — not id descending. -/
theorem c4_list_bounded_and_ordered (st : Store) (limit : Nat)
    (h : st.rows.Pairwise (fun a b => a.id < b.id)) :
    (get_sessions limit st).length ≤ limit ∧
    (get_sessions limit st).Pairwise tsThenInsertion ∧
    ∀ r ∈ get_sessions limit st, r ∈ st.rows := by
  refine ⟨?_, ?_, ?_⟩
  · have := List.length_take limit (orderByTimestampDesc st.rows)
    unfold get_sessions
    omega
  · exact List.Pairwise.sublist (List.take_sublist _ _)
      (orderByTimestampDesc_pairwise _ h)
  · intro r hr
    exact orderByTimestampDesc_mem
      ((List.take_sublist _ _).subset hr)

/-- Witness for the amended C4 at the concrete tied store. -/
theorem c4_list_bounded_and_ordered_witness :
    (get_sessions 200 storeTie).length ≤ 200 ∧
    (get_sessions 200 storeTie).Pairwise tsThenInsertion ∧
    ∀ r ∈ get_sessions 200 storeTie, r ∈ storeTie.rows :=
  c4_list_bounded_and_ordered storeTie 200 (by decide)

/-- Helper: with a valid key, the store component of `log_session` is the
store produced by `save_session` (the notification step never changes or
rolls back the stored row, even when it raises). -/
theorem log_session_store_eq (nowMs : Int) (nowS : ℚ) (af : Bool)
    (st : Store) (queue : List QEntry) (p : SessionIn) :
    (log_session nowMs nowS af st queue p (some API_KEY)).1 =
      (save_session nowMs st p.project p.description
        (pyOrStr p.task_type "manual") p.actual_hours p.manual_estimate
        p.timestamp p.date p.metadata).1 := by
  have hok : require_key (some API_KEY) = Except.ok () := by
    simp [require_key]
  rw [log_session, hok]
  simp only
  split
  · split <;> rfl
  · rfl

/-- Example payload whose metadata is present but the empty map. -/
def payloadEmptyMeta : SessionIn :=
  { project := "proj", description := none, task_type := some "manual"
  , actual_hours := 1, manual_estimate := none, timestamp := some 5
  , date := some "2020-01-02", metadata := some [] }

/-- C3 counterexample: a valid payload carrying `metadata = {}` (present,
empty) is stored with `metadata` NULL (`json.dumps(metadata) if metadata
else None` treats `{}` as falsy), so the record that `record` + `list`
returns has no metadata at all: no deserialization of the listed record can
reproduce the submitted non-absent map, and `metadata` is not one of the
server-defaulted fields the claim excepts. -/
theorem c3_roundtrip_counterexample :
    payloadEmptyMeta.metadata.isSome = true ∧
    (get_sessions 200
        (log_session 0 0 false emptyStore [] payloadEmptyMeta
          (some API_KEY)).1).map (fun r => r.metadata.isSome) = [false] := by
  constructor
  · rfl
  · decide

/-- C3 amended: `record` followed by `list` on a fresh store returns exactly
one record agreeing with the submitted payload field by field —
`task_type`, `timestamp` and `date` via their default-derivation rules when
omitted, and `metadata` in its serialized string form (the serialization of
the submitted map; the listing does not deserialize it) — provided the
payload avoids the empty-but-present values the code conflates with absence:
`metadata` absent or non-empty, `timestamp` absent or nonzero, `date` and
`task_type` absent or non-empty. -/
theorem c3_roundtrip_amended (nowMs : Int) (nowS : ℚ) (af : Bool)
    (p : SessionIn) (hm : p.metadata ≠ some []) (ht : p.timestamp ≠ some 0)
    (hd : p.date ≠ some "") (htt : p.task_type ≠ some "") :
    ∃ r : Session,
      get_sessions 200
          (log_session nowMs nowS af emptyStore [] p (some API_KEY)).1 = [r] ∧
      r.project = p.project ∧
      r.description = p.description ∧
      r.task_type = p.task_type.getD "manual" ∧
      r.actual_hours = p.actual_hours ∧
      r.manual_estimate = p.manual_estimate ∧
      r.timestamp = p.timestamp.getD nowMs ∧
      r.date = p.date.getD (dateOfMs (p.timestamp.getD nowMs)) ∧
      r.metadata = p.metadata.map jsonDumps := by
  rw [log_session_store_eq]
  refine ⟨{ id := 1, project := p.project, description := p.description
          , task_type := pyOrStr p.task_type "manual"
          , actual_hours := p.actual_hours
          , manual_estimate := p.manual_estimate
          , timestamp := pyOrInt p.timestamp nowMs
          , date := pyOrStr p.date (dateOfMs (pyOrInt p.timestamp nowMs))
          , metadata :=
              match p.metadata with
              | some m => if m = [] then none else some (jsonDumps m)
              | none => none },
        ?_, rfl, rfl, ?_, rfl, rfl, ?_, ?_, ?_⟩
  · simp [save_session, get_sessions, orderByTimestampDesc, orderInsert,
      emptyStore]
  · exact pyOrStr_eq_getD htt
  · exact pyOrInt_eq_getD ht
  · rw [pyOrStr_eq_getD hd, pyOrInt_eq_getD ht]
  · cases hmd : p.metadata with
    | none => rfl
    | some m =>
      have hne : m ≠ [] := by
        intro h0
        rw [h0] at hmd
        exact hm hmd
      simp [hne]

/-- Witness for the amended C3 at a concrete fully-populated payload. -/
theorem c3_roundtrip_amended_witness :
    ∃ r : Session,
      get_sessions 200
          (log_session 0 0 false emptyStore [] payloadA (some API_KEY)).1
        = [r] ∧
      r.project = payloadA.project ∧
      r.description = payloadA.description ∧
      r.task_type = payloadA.task_type.getD "manual" ∧
      r.actual_hours = payloadA.actual_hours ∧
      r.manual_estimate = payloadA.manual_estimate ∧
      r.timestamp = payloadA.timestamp.getD 0 ∧
      r.date = payloadA.date.getD (dateOfMs (payloadA.timestamp.getD 0)) ∧
      r.metadata = payloadA.metadata.map jsonDumps :=
  c3_roundtrip_amended 0 0 false payloadA (by decide) (by decide) (by decide)
    (by decide)
